import Mathlib

/-!
Verification of the retrieval-routing core of the repository
(`08_External_Index_Retrievers`): query classification, retriever dispatch,
multi-source aggregation, context formatting and the multilingual answer
pipeline, shallowly embedded from the Python sources
`exercise3_multi_source_news_aggregator.py`,
`exercise4_hybrid_retrieval_system.py` and
`exercise5_multilingual_knowledge_base.py`.

External collaborators (LLM chains, concrete retriever backends, the
language detector) are passed as function parameters; fallible collaborators
return `Except`.
-/

/-- A LangChain `Document`: page content plus metadata. Metadata is modelled
as an association list of string keys and values. -/
structure Document where
  page_content : String
  metadata : List (String × String)
deriving DecidableEq

/-- The default document used with `List.getD`. -/
def default_doc : Document := ⟨"", []⟩

/-- The whitespace characters removed by Python `str.strip()` (the ASCII
ones; queries and page contents in this repository are ordinary text). -/
def pyIsSpace (c : Char) : Bool :=
  c = ' ' || c = '\t' || c = '\n' || c = '\r' || c = '\x0b' || c = '\x0c'

/-- Python `s.strip()`: remove leading and trailing whitespace. -/
def pyStrip (s : String) : String :=
  String.mk (((s.data.dropWhile pyIsSpace).reverse.dropWhile pyIsSpace).reverse)

/-- Python `s.lower()` (ASCII case folding). -/
def pyLower (s : String) : String :=
  String.mk (s.data.map Char.toLower)

/-- Python `d.get(k)` combined with the `or` chains of the sources:
`d.get(k)` yields `None` when absent, and a present-but-empty string is
falsy in Python, so both cases give `none` here. -/
def truthy_get (m : List (String × String)) (k : String) : Option String :=
  match m.lookup k with
  | some v => if v = "" then none else some v
  | none => none

/-- Python string containment `pat in s`, on the underlying character
lists. -/
def listInfixCheck (pat : List Char) : List Char → Bool
  | [] => pat.isEmpty
  | c :: rest => pat.isPrefixOf (c :: rest) || listInfixCheck pat rest

/-- Python `pat in s` for strings. -/
def strContains (s pat : String) : Bool :=
  listInfixCheck pat.data s.data

/-- Python prefix slice `s[:i]` with an `Int` bound: a nonnegative bound
takes the first `i` characters (clamped at the length), a negative bound
drops the last `-i` characters. -/
def pySliceTo (s : String) (i : Int) : String :=
  String.mk (s.data.take (if 0 ≤ i then i.toNat else s.data.length - (-i).toNat))

/-- The content transformation applied to each record by `format_docs`
in exercises 4 and 5 (identical in both): strip, then truncate to
`content[: max_chars - 3] + "..."` when `len(content) > max_chars`. -/
def rendered_content (max_chars : Int) (d : Document) : String :=
  let content := pyStrip d.page_content
  if max_chars < (content.length : Int) then pySliceTo content (max_chars - 3) ++ "..."
  else content

/-- Exercise 4 `format_docs` title choice:
`metadata.get("title") or metadata.get("source") or metadata.get("page") or f"Result {i}"`. -/
def title4 (i : Nat) (d : Document) : String :=
  match truthy_get d.metadata "title" with
  | some t => t
  | none =>
    match truthy_get d.metadata "source" with
    | some t => t
    | none =>
      match truthy_get d.metadata "page" with
      | some t => t
      | none => "Result " ++ toString i

/-- Exercise 4 `format_docs` block for one document: `f"[{title}]\n{content}"`. -/
def doc_block4 (max_chars : Int) (i : Nat) (d : Document) : String :=
  "[" ++ title4 i d ++ "]\n" ++ rendered_content max_chars d

/-- The `parts` list built by the exercise 4 `format_docs` loop
(`enumerate(docs, start=1)` is modelled by threading the index `i`). -/
def blocks4 (max_chars : Int) (i : Nat) : List Document → List String
  | [] => []
  | d :: rest => doc_block4 max_chars i d :: blocks4 max_chars (i + 1) rest

/-- Exercise 4 `format_docs(docs, max_chars=800)`: blocks joined by a blank
line. The caller `hybrid_retrieve` always uses the default budget 800. -/
def format_docs4 (docs : List Document) (max_chars : Int) : String :=
  String.intercalate "\n\n" (blocks4 max_chars 1 docs)

/-- Exercise 5 `format_docs` title choice: `metadata.get("title") or f"Source {i}"`. -/
def title5 (i : Nat) (d : Document) : String :=
  match truthy_get d.metadata "title" with
  | some t => t
  | none => "Source " ++ toString i

/-- Exercise 5 `format_docs` block for one document. -/
def doc_block5 (max_chars : Int) (i : Nat) (d : Document) : String :=
  "[" ++ title5 i d ++ "]\n" ++ rendered_content max_chars d

/-- The `parts` list built by the exercise 5 `format_docs` loop. -/
def blocks5 (max_chars : Int) (i : Nat) : List Document → List String
  | [] => []
  | d :: rest => doc_block5 max_chars i d :: blocks5 max_chars (i + 1) rest

/-- Exercise 5 `format_docs(docs, max_chars=1000)`. The caller
`answer_query_multilingual` always uses the default budget 1000. -/
def format_docs5 (docs : List Document) (max_chars : Int) : String :=
  String.intercalate "\n\n" (blocks5 max_chars 1 docs)

/-- Exercise 3 `format_docs` title choice:
`metadata.get("title") or metadata.get("source") or f"Source {i}"`. -/
def title3 (i : Nat) (d : Document) : String :=
  match truthy_get d.metadata "title" with
  | some t => t
  | none =>
    match truthy_get d.metadata "source" with
    | some t => t
    | none => "Source " ++ toString i

/-- The `parts` list of exercise 3 `format_docs`: no stripping, no
truncation, `f"[{title}]\n{doc.page_content}"`. -/
def blocks3 (i : Nat) : List Document → List String
  | [] => []
  | d :: rest => ("[" ++ title3 i d ++ "]\n" ++ d.page_content) :: blocks3 (i + 1) rest

/-- Exercise 3 `format_docs(docs)`. -/
def format_docs3 (docs : List Document) : String :=
  String.intercalate "\n\n" (blocks3 1 docs)

/-- The retriever configurations constructed by the sources: arXiv, Tavily
and Wikipedia retrievers with their constructor arguments. -/
inductive RetrieverConfig where
  | arxiv (load_max_docs : Nat)
  | tavily (k : Nat) (search_type : String)
  | wikipedia (top_k_results : Nat) (lang : String)
deriving DecidableEq

/-- Exercise 4 `classify_query`: the raw output of the classifier chain
(the chain itself is the external collaborator `chain`) is normalized by
`.strip().lower()` and keyword scanning, defaulting to "general". -/
def classify_query (chain : String → String) (query : String) : String :=
  let raw := pyLower (pyStrip (chain query))
  if strContains raw "academic" then "academic"
  else if strContains raw "current_events" || strContains raw "current" || strContains raw "news" then
    "current_events"
  else if strContains raw "general" then "general"
  else "general"

/-- Exercise 4 `get_retriever_for_type`: academic gets
`ArxivRetriever(load_max_docs=3)`, current_events gets
`TavilySearchAPIRetriever(k=5, search_type="news")`, everything else gets
`WikipediaRetriever(top_k_results=3, lang="en")`. -/
def get_retriever_for_type (query_type : String) : RetrieverConfig :=
  if query_type = "academic" then RetrieverConfig.arxiv 3
  else if query_type = "current_events" then RetrieverConfig.tavily 5 "news"
  else RetrieverConfig.wikipedia 3 "en"

/-- Exercise 4 `hybrid_retrieve`: classify, pick the retriever, retrieve
(`invoke` is the external retrieval collaborator), short-circuit on empty
results, otherwise format with the default budget 800 and prepend the
header. -/
def hybrid_retrieve (chain : String → String)
    (invoke : RetrieverConfig → String → List Document) (query : String) : String :=
  let query_type := classify_query chain query
  let docs := invoke (get_retriever_for_type query_type) query
  if docs.isEmpty then
    "Query type: " ++ query_type ++ "\nNo results found from the selected source."
  else
    let context := format_docs4 docs 800
    let header := "Query type: " ++ query_type ++ "\nSelected source: " ++
      (if query_type = "academic" then "arXiv (academic papers)\n"
       else if query_type = "current_events" then "Tavily (current news/web)\n"
       else "Wikipedia (general knowledge)\n")
    header ++ "\n" ++ context

/-- Exercise 5 `detect_query_language`: the langdetect collaborator
`detect` either returns a code or raises; a raise is caught and mapped to
"en". -/
def detect_query_language {ε : Type} (detect : String → Except ε String) (query : String) : String :=
  match detect query with
  | Except.ok c => c
  | Except.error _ => "en"

/-- Exercise 5 `language_name_from_code`: the literal mapping from the
source, looked up on `lang_code.lower()`, with the source's default. -/
def language_name_from_code (lang_code : String) : String :=
  let mapping : List (String × String) :=
    [("en", "English"), ("es", "Spanish"), ("fr", "French"), ("de", "German"),
     ("hi", "Hindi"), ("pt", "Portuguese"), ("it", "Italian"), ("nl", "Dutch"),
     ("sv", "Swedish"), ("ru", "Russian"), ("zh-cn", "Chinese (Simplified)"),
     ("zh-tw", "Chinese (Traditional)"), ("ja", "Japanese"), ("ko", "Korean")]
  match mapping.lookup (pyLower lang_code) with
  | some n => n
  | none => "the same language as the question"

/-- The supported-language allow-list of exercise 5 `get_wikipedia_retriever`. -/
def supported_langs : List String :=
  ["en", "es", "fr", "de", "hi", "pt", "it", "nl", "sv", "ru", "ja", "ko"]

/-- Exercise 5 `get_wikipedia_retriever`: a code outside the allow-list
falls back to "en"; the retriever is `WikipediaRetriever(top_k_results=3, lang=wiki_lang)`. -/
def get_wikipedia_retriever (lang_code : String) : RetrieverConfig :=
  let wiki_lang := if supported_langs.contains lang_code then lang_code else "en"
  RetrieverConfig.wikipedia 3 wiki_lang

/-- Exercise 5 `answer_query_multilingual`: detect the language, retrieve
from the language-scoped Wikipedia retriever, short-circuit on empty
results, otherwise invoke the answer chain (the external collaborator
`chain`, taking context, question and target language) and prepend the
detected-language header. -/
def answer_query_multilingual {ε : Type} (detect : String → Except ε String)
    (invoke : RetrieverConfig → String → List Document)
    (chain : String → String → String → String) (query : String) : String :=
  let lang_code := detect_query_language detect query
  let lang_name := language_name_from_code lang_code
  let docs := invoke (get_wikipedia_retriever lang_code) query
  if docs.isEmpty then
    "[Detected language: " ++ lang_code ++ " (" ++ lang_name ++ ")]\n" ++
      "No relevant Wikipedia articles were found for this query."
  else
    let context := format_docs5 docs 1000
    let answer := chain context query lang_name
    "[Detected language: " ++ lang_code ++ " (" ++ lang_name ++ ")]\n" ++ "\n" ++ answer

/-- Exercise 3 `build_multi_source_news_chain`, applied to a topic: the
Tavily and Wikipedia retrievers are fallible external collaborators; the
LangChain `RunnableParallel` propagates an exception from either branch,
aborting the invocation; on success the LLM collaborator is invoked with
the topic and the two independently formatted contexts. -/
def build_multi_source_news_chain {ε : Type}
    (tavily wiki : String → Except ε (List Document))
    (llm : String → String → String → String) (topic : String) : Except ε String :=
  match tavily topic with
  | Except.error e => Except.error e
  | Except.ok news_docs =>
    match wiki topic with
    | Except.error e => Except.error e
    | Except.ok wiki_docs =>
      Except.ok (llm topic (format_docs3 news_docs) (format_docs3 wiki_docs))

/-! ## Helper lemmas -/

theorem rendered_content_le (d : Document) (mc : Int)
    (h : ((pyStrip d.page_content).length : Int) ≤ mc) :
    rendered_content mc d = pyStrip d.page_content := by
  simp only [rendered_content]
  rw [if_neg (not_lt.mpr h)]

theorem rendered_content_lt (d : Document) (mc : Int) (h3 : 3 ≤ mc)
    (h : mc < ((pyStrip d.page_content).length : Int)) :
    rendered_content mc d =
      String.mk ((pyStrip d.page_content).data.take (mc.toNat - 3)) ++ "..." := by
  have h0 : (0 : Int) ≤ mc - 3 := by omega
  have ht : (mc - 3).toNat = mc.toNat - 3 := by omega
  simp only [rendered_content, pySliceTo]
  rw [if_pos h, if_pos h0, ht]

theorem rendered_content_len (d : Document) (mc : Int) (h3 : 3 ≤ mc)
    (h : mc < ((pyStrip d.page_content).length : Int)) :
    (rendered_content mc d).length = mc.toNat := by
  rw [rendered_content_lt d mc h3 h, String.length_append]
  have hdots : ("..." : String).length = 3 := rfl
  have hm : (String.mk ((pyStrip d.page_content).data.take (mc.toNat - 3))).length
      = ((pyStrip d.page_content).data.take (mc.toNat - 3)).length := rfl
  rw [hdots, hm, List.length_take]
  have hlen : (pyStrip d.page_content).length = (pyStrip d.page_content).data.length := rfl
  omega

theorem blocks4_getD (mc : Int) (docs : List Document) (n i : Nat) (h : i < docs.length) :
    (blocks4 mc n docs).getD i "" = doc_block4 mc (n + i) (docs.getD i default_doc) := by
  induction docs generalizing n i with
  | nil => simp at h
  | cons d rest ih =>
    cases i with
    | zero => simp [blocks4]
    | succ j =>
      have hj : j < rest.length := by simpa using h
      have := ih (n + 1) j hj
      have harith : n + 1 + j = n + (j + 1) := by omega
      simpa [blocks4, harith] using this

theorem blocks5_getD (mc : Int) (docs : List Document) (n i : Nat) (h : i < docs.length) :
    (blocks5 mc n docs).getD i "" = doc_block5 mc (n + i) (docs.getD i default_doc) := by
  induction docs generalizing n i with
  | nil => simp at h
  | cons d rest ih =>
    cases i with
    | zero => simp [blocks5]
    | succ j =>
      have hj : j < rest.length := by simpa using h
      have := ih (n + 1) j hj
      have harith : n + 1 + j = n + (j + 1) := by omega
      simpa [blocks5, harith] using this

/-! ## Claim theorems -/

/-- Claim C5: for every raw output of the classifier chain, `classify_query`
returns exactly one member of the closed set "academic" / "general" /
"current_events", and returns the default "general" whenever no category
keyword matches; it never fails outward. -/
theorem classify_query_closed (chain : String → String) (q : String) :
    (classify_query chain q = "academic" ∨ classify_query chain q = "general" ∨
      classify_query chain q = "current_events") ∧
    ((strContains (pyLower (pyStrip (chain q))) "academic" = false ∧
      strContains (pyLower (pyStrip (chain q))) "current_events" = false ∧
      strContains (pyLower (pyStrip (chain q))) "current" = false ∧
      strContains (pyLower (pyStrip (chain q))) "news" = false) →
      classify_query chain q = "general") := by
  constructor
  · simp only [classify_query]
    split
    · exact Or.inl rfl
    · split
      · exact Or.inr (Or.inr rfl)
      · split
        · exact Or.inr (Or.inl rfl)
        · exact Or.inr (Or.inl rfl)
  · rintro ⟨h1, h2, h3, h4⟩
    simp [classify_query, h1, h2, h3, h4]

/-- Witness for C5: the raw output "blah" matches no keyword and is
normalized to "general". -/
theorem classify_query_closed_witness :
    (strContains (pyLower (pyStrip "blah")) "academic" = false ∧
      strContains (pyLower (pyStrip "blah")) "current_events" = false ∧
      strContains (pyLower (pyStrip "blah")) "current" = false ∧
      strContains (pyLower (pyStrip "blah")) "news" = false) ∧
    classify_query (fun _ => "blah") "q" = "general" :=
  ⟨by decide, (classify_query_closed (fun _ => "blah") "q").2 (by decide)⟩

/-- Claim C6: ambiguous raw classifier outputs resolve by the fixed
precedence of `classify_query`: "academic" beats
"current_events"/"current"/"news", which beat "general". -/
theorem classify_query_precedence (chain : String → String) (q : String) :
    (strContains (pyLower (pyStrip (chain q))) "academic" = true →
      classify_query chain q = "academic") ∧
    (strContains (pyLower (pyStrip (chain q))) "academic" = false →
      (strContains (pyLower (pyStrip (chain q))) "current_events" = true ∨
       strContains (pyLower (pyStrip (chain q))) "current" = true ∨
       strContains (pyLower (pyStrip (chain q))) "news" = true) →
      classify_query chain q = "current_events") := by
  constructor
  · intro h
    simp [classify_query, h]
  · intro h hor
    rcases hor with h2 | h2 | h2 <;> simp [classify_query, h, h2]

/-- Witness for C6: the raw output "news and academic" contains both
keywords and resolves to "academic". -/
theorem classify_query_precedence_witness :
    strContains (pyLower (pyStrip "news and academic")) "academic" = true ∧
    classify_query (fun _ => "news and academic") "q" = "academic" :=
  ⟨by decide, (classify_query_precedence (fun _ => "news and academic") "q").1 (by decide)⟩

/-- Claim C7: `get_retriever_for_type` is total on category labels:
"academic" maps to `ArxivRetriever(load_max_docs=3)`, "current_events" to
`TavilySearchAPIRetriever(k=5, search_type="news")`, and every other label
(including "general") to `WikipediaRetriever(top_k_results=3, lang="en")`. -/
theorem get_retriever_for_type_total :
    get_retriever_for_type "academic" = RetrieverConfig.arxiv 3 ∧
    get_retriever_for_type "current_events" = RetrieverConfig.tavily 5 "news" ∧
    ∀ t : String, t ≠ "academic" → t ≠ "current_events" →
      get_retriever_for_type t = RetrieverConfig.wikipedia 3 "en" := by
  refine ⟨by decide, by decide, ?_⟩
  intro t h1 h2
  simp [get_retriever_for_type, h1, h2]

/-- Witness for C7: the declared category "general" maps to the Wikipedia
retriever. -/
theorem get_retriever_for_type_total_witness :
    ("general" ≠ "academic" ∧ "general" ≠ "current_events") ∧
    get_retriever_for_type "general" = RetrieverConfig.wikipedia 3 "en" :=
  ⟨by decide, get_retriever_for_type_total.2.2 "general" (by decide) (by decide)⟩

/-- Claim C8: both `format_docs` embeddings are pure and deterministic
(identical inputs give identical output), and the empty record sequence
yields the explicitly empty context "". -/
theorem format_docs_deterministic_empty (docs : List Document) (mc : Int) :
    format_docs4 docs mc = format_docs4 docs mc ∧
    format_docs5 docs mc = format_docs5 docs mc ∧
    format_docs4 [] mc = "" ∧ format_docs5 [] mc = "" :=
  ⟨rfl, rfl, rfl, rfl⟩

/-- Claim C9: when the language-detection collaborator fails,
`detect_query_language` returns the default "en"; the failure never
propagates to the caller. -/
theorem detect_query_language_fallback {ε : Type} (detect : String → Except ε String)
    (q : String) (e : ε) (h : detect q = Except.error e) :
    detect_query_language detect q = "en" := by
  simp [detect_query_language, h]

/-- Witness for C9: a detector that always raises yields "en". -/
theorem detect_query_language_fallback_witness :
    (fun _ : String => (Except.error () : Except Unit String)) "bonjour" = Except.error () ∧
    detect_query_language (fun _ : String => (Except.error () : Except Unit String)) "bonjour" = "en" :=
  ⟨rfl, detect_query_language_fallback (fun _ => Except.error ()) "bonjour" () rfl⟩

/-- Claim C2: when the selected retriever returns no documents,
`hybrid_retrieve` and `answer_query_multilingual` return a "no results"
answer, and the generative answer chain is not invoked (the multilingual
result is independent of the chain collaborator; `hybrid_retrieve` has no
answer-generation step at all). -/
theorem empty_retrieval_short_circuit {ε : Type}
    (chain : String → String) (invoke : RetrieverConfig → String → List Document)
    (detect : String → Except ε String)
    (ch1 ch2 : String → String → String → String) (q : String) :
    (invoke (get_retriever_for_type (classify_query chain q)) q = [] →
      hybrid_retrieve chain invoke q =
        "Query type: " ++ classify_query chain q ++
          "\nNo results found from the selected source.") ∧
    (invoke (get_wikipedia_retriever (detect_query_language detect q)) q = [] →
      answer_query_multilingual detect invoke ch1 q =
        "[Detected language: " ++ detect_query_language detect q ++ " (" ++
          language_name_from_code (detect_query_language detect q) ++ ")]\n" ++
          "No relevant Wikipedia articles were found for this query." ∧
      answer_query_multilingual detect invoke ch1 q =
        answer_query_multilingual detect invoke ch2 q) := by
  constructor
  · intro h
    simp [hybrid_retrieve, h]
  · intro h
    constructor <;> simp [answer_query_multilingual, h]

/-- Witness for C2: a retriever collaborator that returns no documents. -/
theorem empty_retrieval_short_circuit_witness :
    (fun (_ : RetrieverConfig) (_ : String) => ([] : List Document))
        (get_retriever_for_type (classify_query (fun _ => "academic") "hola")) "hola" = [] ∧
    hybrid_retrieve (fun _ => "academic") (fun _ _ => []) "hola" =
      "Query type: " ++ classify_query (fun _ => "academic") "hola" ++
        "\nNo results found from the selected source." ∧
    answer_query_multilingual (fun _ : String => (Except.ok "es" : Except Unit String))
        (fun _ _ => []) (fun _ _ _ => "A") "hola" =
      answer_query_multilingual (fun _ : String => (Except.ok "es" : Except Unit String))
        (fun _ _ => []) (fun _ _ _ => "B") "hola" :=
  ⟨rfl,
   (empty_retrieval_short_circuit (fun _ => "academic") (fun _ _ => [])
      (fun _ => (Except.ok "es" : Except Unit String)) (fun _ _ _ => "A")
      (fun _ _ _ => "B") "hola").1 rfl,
   ((empty_retrieval_short_circuit (fun _ => "academic") (fun _ _ => [])
      (fun _ => (Except.ok "es" : Except Unit String)) (fun _ _ _ => "A")
      (fun _ _ _ => "B") "hola").2 rfl).2⟩

/-- Claim C4 counterexample: with two handles where Tavily succeeds with
three records and Wikipedia times out, the exercise 3 chain invocation
aborts with the timeout error instead of proceeding with the three
records (no per-source error recovery exists in the code). -/
theorem multi_source_single_failure_aborts_cex :
    build_multi_source_news_chain
      (fun _ => (Except.ok [Document.mk "n1" [], Document.mk "n2" [], Document.mk "n3" []] :
        Except String (List Document)))
      (fun _ => Except.error "timeout")
      (fun _ _ _ => "summary") "AI" = Except.error "timeout" := rfl

/-- Claim C4 (amended): in the exercise 3 multi-source chain a failure of
either retriever collaborator propagates and aborts the whole invocation
(no partial result, generation not invoked); only when both succeed does
the chain format each source's records and invoke the generative
collaborator. -/
theorem multi_source_failure_propagation {ε : Type}
    (tavily wiki : String → Except ε (List Document))
    (llm : String → String → String → String) (topic : String) :
    (∀ e, tavily topic = Except.error e →
      build_multi_source_news_chain tavily wiki llm topic = Except.error e) ∧
    (∀ e nd, tavily topic = Except.ok nd → wiki topic = Except.error e →
      build_multi_source_news_chain tavily wiki llm topic = Except.error e) ∧
    (∀ nd wd, tavily topic = Except.ok nd → wiki topic = Except.ok wd →
      build_multi_source_news_chain tavily wiki llm topic =
        Except.ok (llm topic (format_docs3 nd) (format_docs3 wd))) := by
  refine ⟨?_, ?_, ?_⟩
  · intro e he
    simp [build_multi_source_news_chain, he]
  · intro e nd ht hw
    simp [build_multi_source_news_chain, ht, hw]
  · intro nd wd ht hw
    simp [build_multi_source_news_chain, ht, hw]

/-- Witness for C4 (amended): a failing Wikipedia handle aborts the
invocation with its error. -/
theorem multi_source_failure_propagation_witness :
    (fun _ : String => (Except.ok [Document.mk "n1" []] : Except String (List Document))) "AI" =
      Except.ok [Document.mk "n1" []] ∧
    (fun _ : String => (Except.error "timeout" : Except String (List Document))) "AI" =
      Except.error "timeout" ∧
    build_multi_source_news_chain
      (fun _ : String => (Except.ok [Document.mk "n1" []] : Except String (List Document)))
      (fun _ : String => (Except.error "timeout" : Except String (List Document)))
      (fun _ _ _ => "summary") "AI" = Except.error "timeout" :=
  ⟨rfl, rfl,
   (multi_source_failure_propagation
      (fun _ : String => (Except.ok [Document.mk "n1" []] : Except String (List Document)))
      (fun _ : String => (Except.error "timeout" : Except String (List Document)))
      (fun _ _ _ => "summary") "AI").2.1 "timeout" [Document.mk "n1" []] rfl rfl⟩

/-- Claim C1 counterexample: with detected code "xx" (not in the
allow-list) and a nonempty retrieval, the language recorded in the
returned result is the detected code "xx", and the fallback "en" appears
nowhere in the result. -/
theorem recorded_lang_not_fallback_cex :
    answer_query_multilingual (fun _ : String => (Except.ok "xx" : Except Unit String))
      (fun _ _ => [Document.mk "some text" []]) (fun _ _ _ => "ANSWER") "hello" =
      "[Detected language: xx (the same language as the question)]\n\nANSWER" ∧
    strContains "[Detected language: xx (the same language as the question)]\n\nANSWER" "en" =
      false := by
  constructor
  · rfl
  · decide

/-- Claim C1 (amended): for a detected code outside the supported
allow-list, retrieval is routed through a Wikipedia retriever configured
with the fallback language "en", but the language recorded in the returned
result is the detected code itself, not the fallback. -/
theorem unsupported_lang_fallback {ε : Type} (c : String)
    (hc : supported_langs.contains c = false)
    (detect : String → Except ε String) (invoke : RetrieverConfig → String → List Document)
    (chain : String → String → String → String) (q : String)
    (hd : detect q = Except.ok c) :
    get_wikipedia_retriever c = RetrieverConfig.wikipedia 3 "en" ∧
    ∃ rest, answer_query_multilingual detect invoke chain q =
      "[Detected language: " ++ c ++ " (" ++ language_name_from_code c ++ ")]\n" ++ rest := by
  constructor
  · simp only [get_wikipedia_retriever, hc]
    simp
  · have hl : detect_query_language detect q = c := by
      simp [detect_query_language, hd]
    simp only [answer_query_multilingual, hl]
    split
    · exact ⟨"No relevant Wikipedia articles were found for this query.", rfl⟩
    · exact ⟨"\n" ++ chain (format_docs5 (invoke (get_wikipedia_retriever c) q) 1000) q
        (language_name_from_code c), String.append_assoc _ _ _⟩

/-- Witness for C1 (amended): the unsupported code "xx". -/
theorem unsupported_lang_fallback_witness :
    supported_langs.contains "xx" = false ∧
    get_wikipedia_retriever "xx" = RetrieverConfig.wikipedia 3 "en" ∧
    ∃ rest, answer_query_multilingual (fun _ : String => (Except.ok "xx" : Except Unit String))
        (fun _ _ => [Document.mk "some text" []]) (fun _ _ _ => "ANSWER") "hello" =
      "[Detected language: " ++ "xx" ++ " (" ++ language_name_from_code "xx" ++ ")]\n" ++ rest :=
  ⟨by decide,
   unsupported_lang_fallback "xx" (by decide) (fun _ : String => (Except.ok "xx" : Except Unit String))
     (fun _ _ => [Document.mk "some text" []]) (fun _ _ _ => "ANSWER") "hello" rfl⟩

/-- Claim C3 counterexample: with budget 10 and an 11-character record,
the emitted block is not the first 10 characters plus the marker; the
code emits the first 10 − 3 characters plus the marker, so content and
marker together occupy the budget. -/
theorem truncated_to_budget_plus_marker_cex :
    10 < ((pyStrip (Document.mk "0123456789X" []).page_content).length : Int) ∧
    format_docs4 [Document.mk "0123456789X" []] 10 = "[Result 1]\n0123456..." ∧
    format_docs4 [Document.mk "0123456789X" []] 10 ≠
      "[Result 1]\n" ++ "0123456789" ++ "..." := by
  refine ⟨by decide, rfl, by decide⟩

/-- Claim C3 (amended): for every record list and budget of at least 3,
each record appears in the `format_docs` output (exercises 4 and 5) as its
own block; a record whose stripped text exceeds the budget appears with
its content truncated so that content plus the 3-character marker occupy
exactly the budget, and a record whose stripped text does not exceed the
budget appears untruncated. -/
theorem format_docs_truncation (docs : List Document) (mc : Int) (h3 : 3 ≤ mc)
    (i : Nat) (hi : i < docs.length) :
    format_docs4 docs mc = String.intercalate "\n\n" (blocks4 mc 1 docs) ∧
    format_docs5 docs mc = String.intercalate "\n\n" (blocks5 mc 1 docs) ∧
    (blocks4 mc 1 docs).getD i "" =
      "[" ++ title4 (1 + i) (docs.getD i default_doc) ++ "]\n" ++
        rendered_content mc (docs.getD i default_doc) ∧
    (blocks5 mc 1 docs).getD i "" =
      "[" ++ title5 (1 + i) (docs.getD i default_doc) ++ "]\n" ++
        rendered_content mc (docs.getD i default_doc) ∧
    (((pyStrip (docs.getD i default_doc).page_content).length : Int) ≤ mc →
      rendered_content mc (docs.getD i default_doc) =
        pyStrip (docs.getD i default_doc).page_content) ∧
    (mc < ((pyStrip (docs.getD i default_doc).page_content).length : Int) →
      ((rendered_content mc (docs.getD i default_doc)).length : Int) = mc) := by
  refine ⟨rfl, rfl, ?_, ?_, ?_, ?_⟩
  · rw [blocks4_getD mc docs 1 i hi]
    rfl
  · rw [blocks5_getD mc docs 1 i hi]
    rfl
  · intro h
    exact rendered_content_le _ mc h
  · intro h
    rw [rendered_content_len _ mc h3 h]
    omega

/-- Witness for C3 (amended): a two-record list with one record over and
one under a budget of 10. -/
theorem format_docs_truncation_witness :
    ((3 : Int) ≤ 10 ∧ 0 < [Document.mk "0123456789X" [], Document.mk "abc" []].length) ∧
    (blocks4 10 1 [Document.mk "0123456789X" [], Document.mk "abc" []]).getD 0 "" =
      "[" ++ title4 (1 + 0) ([Document.mk "0123456789X" [], Document.mk "abc" []].getD 0 default_doc) ++
        "]\n" ++ rendered_content 10 ([Document.mk "0123456789X" [], Document.mk "abc" []].getD 0 default_doc) ∧
    ((rendered_content 10 ([Document.mk "0123456789X" [], Document.mk "abc" []].getD 0 default_doc)).length : Int) = 10 :=
  ⟨⟨by decide, by decide⟩,
   (format_docs_truncation [Document.mk "0123456789X" [], Document.mk "abc" []] 10
      (by decide) 0 (by decide)).2.2.1,
   (format_docs_truncation [Document.mk "0123456789X" [], Document.mk "abc" []] 10
      (by decide) 0 (by decide)).2.2.2.2.2 (by decide)⟩

/-- Claim C10 counterexample: the exact-budget truncation property fails
for a budget below 3; with budget 2, Python's negative slice keeps all
but the last character, so the emitted content has length 6, not 2. -/
theorem rendered_content_small_budget_cex :
    2 < ((pyStrip (Document.mk "abcd" []).page_content).length : Int) ∧
    rendered_content 2 (Document.mk "abcd" []) = "abc..." ∧
    (rendered_content 2 (Document.mk "abcd" [])).length ≠ 2 := by
  refine ⟨by decide, rfl, by decide⟩

/-- Claim C10 (amended): in the shared `format_docs` truncation logic, the
content is stripped before the length check; for a budget of at least 3, a
record whose stripped content has length at most the budget (in particular
exactly the budget) is emitted unmodified, and when truncation occurs the
emitted content is the first budget − 3 stripped characters plus the
3-character marker, of length exactly the budget. -/
theorem rendered_content_spec (d : Document) (mc : Int) (h3 : 3 ≤ mc) :
    (((pyStrip d.page_content).length : Int) ≤ mc →
      rendered_content mc d = pyStrip d.page_content) ∧
    (mc < ((pyStrip d.page_content).length : Int) →
      rendered_content mc d =
        String.mk ((pyStrip d.page_content).data.take (mc.toNat - 3)) ++ "..." ∧
      (rendered_content mc d).length = mc.toNat) := by
  constructor
  · intro h
    exact rendered_content_le d mc h
  · intro h
    exact ⟨rendered_content_lt d mc h3 h, rendered_content_len d mc h3 h⟩

/-- Witness for C10 (amended): budget 5 with a record of stripped length
exactly 5 (unmodified) — checked through the theorem at a record of
length 9, truncated to "12" plus the marker. -/
theorem rendered_content_spec_witness :
    ((3 : Int) ≤ 5 ∧ 5 < ((pyStrip (Document.mk " 123456789 " []).page_content).length : Int)) ∧
    rendered_content 5 (Document.mk " 123456789 " []) =
      String.mk ((pyStrip (Document.mk " 123456789 " []).page_content).data.take ((5 : Int).toNat - 3)) ++ "..." ∧
    (rendered_content 5 (Document.mk " 123456789 " [])).length = (5 : Int).toNat :=
  ⟨⟨by decide, by decide⟩,
   (rendered_content_spec (Document.mk " 123456789 " []) 5 (by decide)).2 (by decide)⟩
